import Mathlib

/-!
# Verification of the spotify-analyzer ingestion and aggregation pipeline

Shallow embedding of `src/analysis.py`:

* `load_all_music_history` (lines 20-38): the sharded-file ingestion loop.
  The filesystem is modelled as a map from shard index to a `FileResult`
  (`found` = the JSON array loads, `missing` = `FileNotFoundError`,
  `error` = any other exception during open/parse).  The unbounded
  `while True` loop is modelled with a fuel parameter; the theorems assume
  the fuel exceeds the index at which the loop stops.  The `print` of the
  `except Exception` branch is modelled by the `errorDiagnostic` flag.
* `history_to_df` (lines 50-56): normalization of raw records into rows
  with the derived columns `date` and `minutesPlayed`.  `pd.to_datetime`
  of the `"YYYY-MM-DD HH:MM"` string is modelled by the raw record already
  carrying a structured `Timestamp`; `msPlayed / 60000` is computed in `ℚ`
  (exact, matching the float computation on the relevant comparisons).
* the summary computations of `plot_overall_stats` (lines 62-107) and
  `plot_listening_patterns` (lines 110-156): pandas `groupby(key)[col].sum()`
  with the default `sort=True` is modelled by summing over the distinct
  keys sorted ascending; `sort_values(ascending=False)` is modelled as
  pandas implements it (a stable ascending argsort, reversed); `head(10)`
  is `List.take 10`; `reindex(day_order)` fills labels absent from the
  group index with NaN, modelled as `Option.none`.
* the in-place column assignments `music_df['hour'] = …`,
  `music_df['day_of_week'] = …`, `music_df['month'] = …` of
  `plot_listening_patterns`, which mutate the shared `music_df` frame,
  are modelled by a `MusicDF` state carrying the three optional derived
  columns, and by state-transformer versions of the two plot functions.
-/

namespace SpotifyAnalyzer

/-! ## Sharded ingestion: `load_all_music_history` -/

variable {α : Type}

/-- Outcome of attempting `load_json('sampledata/StreamingHistory_music_<i>.json')`:
the file loads as a list of records, raises `FileNotFoundError`, or raises
any other exception (I/O or JSON parse failure). -/
inductive FileResult (α : Type) where
  | found : List α → FileResult α
  | missing : FileResult α
  | error : FileResult α
deriving DecidableEq

/-- What `load_all_music_history` produces: the accumulated records, and
whether the `except Exception` branch printed an error diagnostic. -/
structure LoadOutcome (α : Type) where
  records : List α
  errorDiagnostic : Bool
deriving DecidableEq

/-- The body of the `while True` loop of `load_all_music_history`, starting at
shard index `i` with the given fuel: on `found` extend the accumulator and
advance the index, on `missing` (`FileNotFoundError`) stop silently, on any
other `error` print a diagnostic and stop. -/
def loadLoop (fs : Nat → FileResult α) : Nat → Nat → LoadOutcome α
  | 0, _ => ⟨[], false⟩
  | fuel + 1, i =>
    match fs i with
    | .found recs =>
      let rest := loadLoop fs fuel (i + 1)
      ⟨recs ++ rest.records, rest.errorDiagnostic⟩
    | .missing => ⟨[], false⟩
    | .error => ⟨[], true⟩

/-- `load_all_music_history` (src/analysis.py lines 20-38): run the shard
loop from index 0. -/
def load_all_music_history (fs : Nat → FileResult α) (fuel : Nat) : LoadOutcome α :=
  loadLoop fs fuel 0

/-! ## Data model: timestamps, dates, rows -/

/-- Calendar date, as produced by `endTime.dt.date`. -/
structure Date where
  year : Nat
  month : Nat
  day : Nat
deriving DecidableEq

/-- Numeric key realising the chronological order on dates (pandas sorts
group keys of dtype `date` chronologically). -/
def Date.key (d : Date) : Nat :=
  d.year * 10000 + d.month * 100 + d.day

/-- A parsed `endTime` timestamp (`pd.to_datetime` of the source string
`"YYYY-MM-DD HH:MM"`). -/
structure Timestamp where
  year : Nat
  month : Nat
  day : Nat
  hour : Nat
  minute : Nat
deriving DecidableEq

/-- `endTime.dt.date`: the calendar-date portion of the timestamp. -/
def Timestamp.date (t : Timestamp) : Date :=
  ⟨t.year, t.month, t.day⟩

/-- Sakamoto day-of-week table. -/
def sakamotoTable : List Nat := [0, 3, 2, 5, 0, 3, 5, 1, 4, 6, 2, 4]

/-- Day-of-week index of a Gregorian date, 0 = Sunday (Sakamoto's method). -/
def dayIndexSundayZero (y m d : Nat) : Nat :=
  let yy := if m < 3 then y - 1 else y
  (yy + yy / 4 + yy / 400 + sakamotoTable.getD (m - 1) 0 + d - yy / 100) % 7

/-- English weekday names indexed Sunday-first, as `dt.day_name()` produces. -/
def dayNamesSundayFirst : List String :=
  ["Sunday", "Monday", "Tuesday", "Wednesday", "Thursday", "Friday", "Saturday"]

/-- `endTime.dt.day_name()`. -/
def Timestamp.dayName (t : Timestamp) : String :=
  dayNamesSundayFirst.getD (dayIndexSundayZero t.year t.month t.day) ""

/-- Zero-pad a number to two digits, as `strftime` does for `%m`. -/
def pad2 (n : Nat) : String :=
  if n < 10 then "0" ++ toString n else toString n

/-- `endTime.dt.strftime('%Y-%m')`: the year-month bucket string. -/
def Timestamp.monthStr (t : Timestamp) : String :=
  toString t.year ++ "-" ++ pad2 t.month

/-- One raw streaming-history record, with `endTime` already parsed. -/
structure RawRecord where
  endTime : Timestamp
  artistName : String
  trackName : String
  msPlayed : Nat
deriving DecidableEq

/-- One row of the normalized dataframe produced by `history_to_df`. -/
structure Row where
  endTime : Timestamp
  artistName : String
  trackName : String
  msPlayed : Nat
  date : Date
  minutesPlayed : ℚ
deriving DecidableEq

/-- `history_to_df` (src/analysis.py lines 50-56): parse `endTime`, attach
the derived columns `date = endTime.dt.date` and
`minutesPlayed = msPlayed / 60000`. -/
def history_to_df (history_data : List RawRecord) : List Row :=
  history_data.map fun rec =>
    { endTime := rec.endTime
      artistName := rec.artistName
      trackName := rec.trackName
      msPlayed := rec.msPlayed
      date := rec.endTime.date
      minutesPlayed := (rec.msPlayed : ℚ) / 60000 }

/-! ## Generic groupby-sum machinery

pandas `df.groupby(key)[col].sum()` with the default `sort=True`: one output
entry per distinct value of the key column, keys sorted ascending, each entry
carrying the sum of `col` over the rows of that group. -/

/-- Lexicographic code-point comparison of character lists: the order Python
and pandas use on `str` keys. -/
def charListLe : List Char → List Char → Bool
  | [], _ => true
  | _ :: _, [] => false
  | a :: as, b :: bs =>
    if a.toNat < b.toNat then true
    else if b.toNat < a.toNat then false
    else charListLe as bs

/-- Lexicographic code-point order on strings. -/
def strLe (a b : String) : Prop := charListLe a.data b.data = true

instance : DecidableRel strLe :=
  fun a b => inferInstanceAs (Decidable (charListLe a.data b.data = true))

/-- Sum of `v` over the rows whose key equals `key` (one pandas group). -/
def sumBy {κ : Type} [DecidableEq κ] (k : Row → κ) (v : Row → ℚ)
    (rows : List Row) (key : κ) : ℚ :=
  ((rows.filter fun r => k r = key).map v).sum

/-- The group index of `groupby(key)` with `sort=True`: distinct keys present
in the data, sorted ascending by `le`. -/
def groupKeys {κ : Type} [DecidableEq κ] (k : Row → κ)
    (le : κ → κ → Prop) [DecidableRel le] (rows : List Row) : List κ :=
  ((rows.map k).dedup).insertionSort le

/-- `groupby(key)[col].sum()` as an ordered `(key, value)` sequence. -/
def groupbySum {κ : Type} [DecidableEq κ] (k : Row → κ) (v : Row → ℚ)
    (le : κ → κ → Prop) [DecidableRel le] (rows : List Row) : List (κ × ℚ) :=
  (groupKeys k le rows).map fun key => (key, sumBy k v rows key)

instance {κ : Type} : DecidableRel fun a b : κ × ℚ => a.2 ≤ b.2 :=
  fun a b => inferInstanceAs (Decidable (a.2 ≤ b.2))

instance {κ : Type} : IsTotal (κ × ℚ) fun a b => a.2 ≤ b.2 :=
  ⟨fun a b => le_total a.2 b.2⟩

instance {κ : Type} : IsTrans (κ × ℚ) fun a b => a.2 ≤ b.2 :=
  ⟨fun _ _ _ h₁ h₂ => le_trans h₁ h₂⟩

instance : DecidableRel fun a b : Date => a.key ≤ b.key :=
  fun a b => Nat.decLe a.key b.key

instance : IsTotal Date fun a b => a.key ≤ b.key :=
  ⟨fun a b => Nat.le_total a.key b.key⟩

instance : IsTrans Date fun a b => a.key ≤ b.key :=
  ⟨fun _ _ _ h₁ h₂ => Nat.le_trans h₁ h₂⟩

/-- `Series.sort_values(ascending=False)` as pandas computes it: a stable
ascending argsort of the values, then the indexer reversed
(`nargsort`: `if not ascending: indexer = indexer[::-1]`). -/
def sort_values_descending {κ : Type} (l : List (κ × ℚ)) : List (κ × ℚ) :=
  (l.insertionSort fun a b => a.2 ≤ b.2).reverse

/-! ## The summary computations -/

/-- `music_df['minutesPlayed'].sum()` (line 67; the podcast total of line 68
is the same function on the podcast rows). -/
def total_minutes (rows : List Row) : ℚ :=
  (rows.map fun r => r.minutesPlayed).sum

/-- Line 80: `groupby('artistName')['minutesPlayed'].sum()
.sort_values(ascending=False).head(10)`. -/
def top_artists (rows : List Row) : List (String × ℚ) :=
  (sort_values_descending
    (groupbySum (fun r => r.artistName) (fun r => r.minutesPlayed) strLe rows)).take 10

/-- Line 87: `groupby('date')['minutesPlayed'].sum()`, keys in chronological
order. -/
def daily_listening (rows : List Row) : List (Date × ℚ) :=
  groupbySum (fun r => r.date) (fun r => r.minutesPlayed)
    (fun a b => a.key ≤ b.key) rows

/-- Line 99: `groupby('trackName')['minutesPlayed'].count()
.sort_values(ascending=False).head(10)`; `count()` counts the (never null)
rows of each group, modelled as summing 1 per row. -/
def track_counts (rows : List Row) : List (String × ℚ) :=
  (sort_values_descending
    (groupbySum (fun r => r.trackName) (fun _ => 1) strLe rows)).take 10

/-- Line 116: `groupby('hour')['minutesPlayed'].sum()` where
`hour = endTime.dt.hour`. -/
def hourly_listening (rows : List Row) : List (Nat × ℚ) :=
  groupbySum (fun r => r.endTime.hour) (fun r => r.minutesPlayed) (· ≤ ·) rows

/-- Lines 126-127: the fixed Monday-first label order passed to `reindex`. -/
def day_order : List String :=
  ["Monday", "Tuesday", "Wednesday", "Thursday", "Friday", "Saturday", "Sunday"]

/-- Line 127: `groupby('day_of_week')['minutesPlayed'].sum().reindex(day_order)`.
`reindex` emits one entry per label of `day_order`; a label absent from the
group index gets NaN, modelled as `none`. -/
def weekly_listening (rows : List Row) : List (String × Option ℚ) :=
  day_order.map fun d =>
    (d, if d ∈ rows.map (fun r => r.endTime.dayName)
        then some (sumBy (fun r => r.endTime.dayName) (fun r => r.minutesPlayed) rows d)
        else none)

/-- Line 136: `groupby('month')['minutesPlayed'].sum()` where
`month = endTime.dt.strftime('%Y-%m')`; lexicographic string order is
chronological for this format. -/
def monthly_listening (rows : List Row) : List (String × ℚ) :=
  groupbySum (fun r => r.endTime.monthStr) (fun r => r.minutesPlayed) strLe rows

/-- Line 147: `music_df[music_df['minutesPlayed'] > 0.1]`. -/
def valid_plays (rows : List Row) : List Row :=
  rows.filter fun r => (1 : ℚ) / 10 < r.minutesPlayed

/-! ## The shared `music_df` frame and the two plot functions as state
transformers

`plot_listening_patterns` assigns three new columns to the module-level
`music_df` (lines 115, 125, 135); `plot_overall_stats` performs no
assignment to `music_df` (line 88 mutates the fresh `reset_index` frame
`daily_listening`, not `music_df`). -/

/-- The shared `music_df` frame: the normalized rows plus the three derived
columns that `plot_listening_patterns` adds in place (absent until then). -/
structure MusicDF where
  rows : List Row
  hour : Option (List Nat)
  day_of_week : Option (List String)
  month : Option (List String)

/-- The frame as `history_to_df` returns it: no derived time columns yet. -/
def mkMusicDF (rows : List Row) : MusicDF :=
  ⟨rows, none, none, none⟩

/-- Effect of `plot_overall_stats` (lines 62-107) on the shared `music_df`:
it only reads the frame. Its summaries are `total_minutes`, `top_artists`,
`daily_listening`, `track_counts`. -/
def plot_overall_stats (df : MusicDF) : MusicDF := df

/-- Effect of `plot_listening_patterns` (lines 110-156) on the shared
`music_df`: the assignments `music_df['hour'] = endTime.dt.hour`,
`music_df['day_of_week'] = endTime.dt.day_name()`,
`music_df['month'] = endTime.dt.strftime('%Y-%m')`. Its summaries are
`hourly_listening`, `weekly_listening`, `monthly_listening`, `valid_plays`. -/
def plot_listening_patterns (df : MusicDF) : MusicDF :=
  { rows := df.rows
    hour := some (df.rows.map fun r => r.endTime.hour)
    day_of_week := some (df.rows.map fun r => r.endTime.dayName)
    month := some (df.rows.map fun r => r.endTime.monthStr) }

/-! ## Concrete inputs used to instantiate the theorems -/

/-- A filesystem with shards 0 and 1 present and shard 2 absent. -/
def C1fs : Nat → FileResult Nat := fun i =>
  if i = 0 then .found [1, 2] else if i = 1 then .found [3] else .missing

/-- A filesystem with shards 0 and 2 present and shard 1 absent. -/
def C2fsGap : Nat → FileResult Nat := fun i =>
  if i = 0 then .found [7] else if i = 1 then .missing else .found [9]

/-- A filesystem where only shard 1 exists (shard 0 missing). -/
def C2fsNoZero : Nat → FileResult Nat := fun i =>
  if i = 1 then .found [5] else .missing

/-- A filesystem with shard 0 present and a parse error at shard 1. -/
def C5fs : Nat → FileResult Nat := fun i =>
  if i = 0 then .found [4, 6] else .error

/-- A single normalized event: 2024-01-01 (a Monday) 10:00, 3 minutes. -/
def C3row : Row :=
  { endTime := ⟨2024, 1, 1, 10, 0⟩
    artistName := "A"
    trackName := "T1"
    msPlayed := 180000
    date := ⟨2024, 1, 1⟩
    minutesPlayed := 3 }

/-- Event by artist "A", track "T1", 1 minute. -/
def C6rowA : Row :=
  { endTime := ⟨2024, 1, 1, 10, 0⟩
    artistName := "A"
    trackName := "T1"
    msPlayed := 60000
    date := ⟨2024, 1, 1⟩
    minutesPlayed := 1 }

/-- Event by artist "B", track "T2", 1 minute, occurring after the "A"
event; its aggregated value ties with "A" in both top-10 summaries. -/
def C6rowB : Row :=
  { endTime := ⟨2024, 1, 1, 11, 0⟩
    artistName := "B"
    trackName := "T2"
    msPlayed := 60000
    date := ⟨2024, 1, 1⟩
    minutesPlayed := 1 }

/-- A one-record raw input for `history_to_df`. -/
def C8rec : RawRecord :=
  { endTime := ⟨2024, 1, 1, 10, 0⟩
    artistName := "A"
    trackName := "T1"
    msPlayed := 180000 }

/-- The row `history_to_df` produces from `C8rec`. -/
def C8row : Row :=
  { endTime := ⟨2024, 1, 1, 10, 0⟩
    artistName := "A"
    trackName := "T1"
    msPlayed := 180000
    date := ⟨2024, 1, 1⟩
    minutesPlayed := (180000 : ℚ) / 60000 }

/-- A freshly normalized one-event frame (no derived time columns yet). -/
def C4df : MusicDF := mkMusicDF [C3row]

/-! ## Shard-loading lemmas -/

/-- Running the shard loop from index `i` when the next `shards.length`
indices load and the loop then stops: either stop cause yields the
concatenation of those shards, with the diagnostic flag recording whether
the stop was an error. -/
theorem loadLoop_eq (fs : Nat → FileResult α) (shards : List (List α)) :
    ∀ i fuel : Nat,
      (∀ j < shards.length, fs (i + j) = .found (shards.getD j [])) →
      shards.length < fuel →
      (fs (i + shards.length) = .missing →
        loadLoop fs fuel i = ⟨shards.flatten, false⟩) ∧
      (fs (i + shards.length) = .error →
        loadLoop fs fuel i = ⟨shards.flatten, true⟩) := by
  induction shards with
  | nil =>
    intro i fuel _ hfuel
    obtain ⟨f, rfl⟩ : ∃ f, fuel = f + 1 := ⟨fuel - 1, by omega⟩
    refine ⟨fun hstop => ?_, fun hstop => ?_⟩ <;>
      · simp only [List.length_nil, Nat.add_zero] at hstop
        simp [loadLoop, hstop]
  | cons s rest ih =>
    intro i fuel hfound hfuel
    obtain ⟨f, rfl⟩ : ∃ f, fuel = f + 1 := ⟨fuel - 1, by omega⟩
    have h0 : fs i = .found s := by simpa using hfound 0 (by simp)
    have hrest := ih (i + 1) f
      (fun j hj => by
        have h := hfound (j + 1) (by simpa using Nat.succ_lt_succ hj)
        have e : i + (j + 1) = i + 1 + j := by omega
        rw [e] at h
        simpa using h)
      (by simp only [List.length_cons] at hfuel; omega)
    have hlen : i + (s :: rest).length = i + 1 + rest.length := by
      simp only [List.length_cons]; omega
    refine ⟨fun hstop => ?_, fun hstop => ?_⟩
    · rw [hlen] at hstop
      simp [loadLoop, h0, hrest.1 hstop]
    · rw [hlen] at hstop
      simp [loadLoop, h0, hrest.2 hstop]

end SpotifyAnalyzer

namespace SpotifyAnalyzer

/-! ## Claim theorems: shard ingestion -/

/-- C1: for a gap-free sequence of `k ≥ 0` shard files numbered from 0
(all of `0, …, k-1` load, index `k` raises `FileNotFoundError`),
`load_all_music_history` returns the concatenation of the `k` shards'
records — shards in index order, records in file order within each shard,
no reordering or deduplication — with no error diagnostic; `shards = []`
is the `k = 0` case, yielding the empty sequence rather than an error. -/
theorem C1_gap_free_concatenation (shards : List (List α))
    (fs : Nat → FileResult α) (fuel : Nat)
    (hfound : ∀ j < shards.length, fs j = .found (shards.getD j []))
    (hstop : fs shards.length = .missing)
    (hfuel : shards.length < fuel) :
    load_all_music_history fs fuel = ⟨shards.flatten, false⟩ := by
  have h := (loadLoop_eq fs shards 0 fuel
      (fun j hj => by simpa using hfound j hj) hfuel).1 (by simpa using hstop)
  simpa [load_all_music_history] using h

/-- Witness for C1: two shards `[1, 2]` and `[3]` concatenate to
`[1, 2, 3]`. -/
theorem C1_witness :
    load_all_music_history C1fs 3 = ⟨[[1, 2], [3]].flatten, false⟩ :=
  C1_gap_free_concatenation [[1, 2], [3]] C1fs 3 (by decide) (by decide)
    (by decide)

/-- C2: ingestion stops at the first missing index. If shard 0 exists,
shard 1 is absent and shard 2 exists, only shard 0's records are returned
(shard 2 never contributes); if only shard 1 exists (shard 0 missing), the
result is empty rather than shard 1's records. -/
theorem C2_stops_at_first_gap (fs fsOnly1 : Nat → FileResult α)
    (r0 r2 r1 : List α) (fuel : Nat)
    (h0 : fs 0 = .found r0) (h1 : fs 1 = .missing) (_h2 : fs 2 = .found r2)
    (hfuel : 2 ≤ fuel)
    (h0' : fsOnly1 0 = .missing) (_h1' : fsOnly1 1 = .found r1) :
    load_all_music_history fs fuel = ⟨r0, false⟩ ∧
    load_all_music_history fsOnly1 fuel = ⟨[], false⟩ := by
  constructor
  · have h := (loadLoop_eq fs [r0] 0 fuel
        (fun j hj => by
          simp only [List.length_cons, List.length_nil] at hj
          obtain rfl : j = 0 := by omega
          simpa using h0)
        (by simp only [List.length_cons, List.length_nil]; omega)).1
        (by simpa using h1)
    simpa [load_all_music_history] using h
  · have h := (loadLoop_eq fsOnly1 [] 0 fuel
        (fun j hj => absurd hj (by simp))
        (by simp only [List.length_nil]; omega)).1 (by simpa using h0')
    simpa [load_all_music_history] using h

/-- Witness for C2: with shards 0 and 2 present but 1 absent the result is
shard 0's records `[7]`; with only shard 1 present the result is empty. -/
theorem C2_witness :
    load_all_music_history C2fsGap 9 = ⟨[7], false⟩ ∧
    load_all_music_history C2fsNoZero 9 = ⟨[], false⟩ :=
  C2_stops_at_first_gap C2fsGap C2fsNoZero [7] [9] [5] 9 (by decide)
    (by decide) (by decide) (by decide) (by decide) (by decide)

/-- C5: if reading or parsing shard `k` fails for a reason other than the
file being absent, after gap-free shards `0, …, k-1`, the loop halts there,
returns exactly the records accumulated from the prior shards, and surfaces
the error diagnostic; the function still returns normally (the exception is
caught, never propagated). -/
theorem C5_error_halts_with_partial_result (shards : List (List α))
    (fs : Nat → FileResult α) (fuel : Nat)
    (hfound : ∀ j < shards.length, fs j = .found (shards.getD j []))
    (hstop : fs shards.length = .error)
    (hfuel : shards.length < fuel) :
    load_all_music_history fs fuel = ⟨shards.flatten, true⟩ := by
  have h := (loadLoop_eq fs shards 0 fuel
      (fun j hj => by simpa using hfound j hj) hfuel).2 (by simpa using hstop)
  simpa [load_all_music_history] using h

/-- Witness for C5: shard 0 loads as `[4, 6]`, shard 1 raises a non-missing
error; the result keeps `[4, 6]` and flags the diagnostic. -/
theorem C5_witness :
    load_all_music_history C5fs 4 = ⟨[[4, 6]].flatten, true⟩ :=
  C5_error_halts_with_partial_result [[4, 6]] C5fs 4 (by decide) (by decide)
    (by decide)

/-! ## Groupby lemmas -/

theorem sumBy_nil {κ : Type} [DecidableEq κ] (k : Row → κ) (v : Row → ℚ)
    (key : κ) : sumBy k v [] key = 0 := rfl

theorem sumBy_cons {κ : Type} [DecidableEq κ] (k : Row → κ) (v : Row → ℚ)
    (r : Row) (rows : List Row) (key : κ) :
    sumBy k v (r :: rows) key =
      (if k r = key then v r else 0) + sumBy k v rows key := by
  by_cases h : k r = key <;> simp [sumBy, List.filter_cons, h]

theorem sum_ite_key_not_mem {κ : Type} [DecidableEq κ] (a : κ) (x : ℚ)
    (keys : List κ) (ha : a ∉ keys) :
    (keys.map fun key => if a = key then x else 0).sum = 0 := by
  induction keys with
  | nil => simp
  | cons b keys ih =>
    simp only [List.mem_cons, not_or] at ha
    simp [ha.1, ih ha.2]

theorem sum_ite_key_mem {κ : Type} [DecidableEq κ] (a : κ) (x : ℚ)
    (keys : List κ) (hnd : keys.Nodup) (ha : a ∈ keys) :
    (keys.map fun key => if a = key then x else 0).sum = x := by
  induction keys with
  | nil => simp at ha
  | cons b keys ih =>
    rcases List.mem_cons.mp ha with rfl | hmem
    · have hnot : a ∉ keys := (List.nodup_cons.mp hnd).1
      simp [sum_ite_key_not_mem a x keys hnot]
    · have hab : a ≠ b := by
        rintro rfl
        exact (List.nodup_cons.mp hnd).1 hmem
      simp [hab, ih (List.nodup_cons.mp hnd).2 hmem]

/-- Summing the per-group sums over any duplicate-free list of keys covering
every row's key recovers the total: grouping partitions the rows. -/
theorem sum_sumBy_eq_total {κ : Type} [DecidableEq κ] (k : Row → κ)
    (v : Row → ℚ) (rows : List Row) (keys : List κ) (hnd : keys.Nodup)
    (hmem : ∀ r ∈ rows, k r ∈ keys) :
    (keys.map fun key => sumBy k v rows key).sum = (rows.map v).sum := by
  induction rows with
  | nil => simp [sumBy_nil]
  | cons r rows ih =>
    have h1 : (keys.map fun key => sumBy k v (r :: rows) key)
        = keys.map fun key =>
            (if k r = key then v r else 0) + sumBy k v rows key :=
      List.map_congr_left fun key _ => sumBy_cons k v r rows key
    rw [h1, List.sum_map_add,
      sum_ite_key_mem (k r) (v r) keys hnd (hmem r (List.mem_cons_self r rows)),
      ih fun x hx => hmem x (List.mem_cons_of_mem r hx)]
    simp

/-- The key column of `groupbySum` is a permutation of the distinct keys of
the input, in particular duplicate-free and covering every row's key. -/
theorem groupbySum_fst_perm {κ : Type} [DecidableEq κ] (k : Row → κ)
    (v : Row → ℚ) (le : κ → κ → Prop) [DecidableRel le] (rows : List Row) :
    ((groupbySum k v le rows).map Prod.fst).Perm ((rows.map k).dedup) := by
  have h : (groupbySum k v le rows).map Prod.fst = groupKeys k le rows := by
    simp only [groupbySum, List.map_map, Function.comp_def, List.map_id']
  rw [h]
  exact List.perm_insertionSort le ((rows.map k).dedup)

/-- Summing the value column of `groupbySum` recovers the total of `v`. -/
theorem groupbySum_snd_sum {κ : Type} [DecidableEq κ] (k : Row → κ)
    (v : Row → ℚ) (le : κ → κ → Prop) [DecidableRel le] (rows : List Row) :
    ((groupbySum k v le rows).map Prod.snd).sum = (rows.map v).sum := by
  have h : (groupbySum k v le rows).map Prod.snd
      = (groupKeys k le rows).map fun key => sumBy k v rows key := by
    simp [groupbySum]
  rw [h]
  have hperm : ((groupKeys k le rows).map fun key => sumBy k v rows key).Perm
      (((rows.map k).dedup).map fun key => sumBy k v rows key) :=
    (List.perm_insertionSort le ((rows.map k).dedup)).map _
  rw [hperm.sum_eq]
  exact sum_sumBy_eq_total k v rows ((rows.map k).dedup)
    ((rows.map k).nodup_dedup)
    (fun r hr => List.mem_dedup.mpr (List.mem_map_of_mem k hr))

/-! ## Claim theorem: the daily-activity summary partitions the total -/

/-- C10: the per-date sums of the daily-activity summary add up to the total
music listening time — `groupby('date')` partitions the events with no loss
or duplication. -/
theorem C10_daily_sums_to_total (rows : List Row) :
    ((daily_listening rows).map Prod.snd).sum = total_minutes rows :=
  groupbySum_snd_sum (fun r => r.date) (fun r => r.minutesPlayed)
    (fun a b => a.key ≤ b.key) rows

/-! ## Claim theorems: bucket structure of the distributions -/

/-- Counterexample to C3: for a single event at hour 10, the hourly summary
has one bucket, not 24; and the day-of-week summary carries `none`
(pandas NaN) — not zero — on the six event-free days. -/
theorem C3_counterexample :
    (hourly_listening [C3row]).length = 1 ∧
    weekly_listening [C3row] =
      [("Monday", some 3), ("Tuesday", none), ("Wednesday", none),
       ("Thursday", none), ("Friday", none), ("Saturday", none),
       ("Sunday", none)] := by
  constructor
  · simp +decide [hourly_listening, groupbySum, groupKeys, C3row,
      List.insertionSort, List.orderedInsert]
  · simp +decide [weekly_listening, day_order, sumBy, C3row, List.filter]

/-- C3 (amended): the day-of-week summary always has exactly 7 buckets in
Monday…Sunday order, but a day with no events carries an undefined (NaN)
value rather than zero; the hourly summary has one bucket per distinct hour
occurring in the data, in ascending order — not always 24. -/
theorem C3_bucket_structure (rows : List Row) :
    (weekly_listening rows).map Prod.fst = day_order ∧
    (weekly_listening rows).length = 7 ∧
    ((hourly_listening rows).map Prod.fst).Perm
      ((rows.map fun r => r.endTime.hour).dedup) ∧
    List.Sorted (· ≤ ·) ((hourly_listening rows).map Prod.fst) := by
  refine ⟨?_, ?_, ?_, ?_⟩
  · simp only [weekly_listening, List.map_map, Function.comp_def,
      List.map_id']
  · simp [weekly_listening, day_order]
  · exact groupbySum_fst_perm (fun r => r.endTime.hour)
      (fun r => r.minutesPlayed) (· ≤ ·) rows
  · have h : (hourly_listening rows).map Prod.fst =
        groupKeys (fun r => r.endTime.hour) (· ≤ ·) rows := by
      simp only [hourly_listening, groupbySum, List.map_map,
        Function.comp_def, List.map_id']
    rw [h]
    exact List.sorted_insertionSort (· ≤ ·) _

/-! ## Claim theorems: top-N summaries -/

/-- Reversing a stable ascending sort by value yields a sequence whose
values are non-increasing. -/
theorem sort_values_descending_sorted {κ : Type} (l : List (κ × ℚ)) :
    List.Sorted (fun a b : κ × ℚ => b.2 ≤ a.2) (sort_values_descending l) := by
  unfold sort_values_descending
  rw [List.Sorted, List.pairwise_reverse]
  exact List.sorted_insertionSort (fun a b : κ × ℚ => a.2 ≤ b.2) l

/-- Counterexample to C6: with the "A" event first in the input and both
artists (and both tracks) tied at the same aggregated value, the code
outputs "B" before "A" (groupby sorts the keys alphabetically and the
descending sort reverses a stable ascending sort), not the first-seen
order "A" before "B". -/
theorem C6_counterexample :
    ([C6rowA, C6rowB].map fun r => r.artistName).dedup = ["A", "B"] ∧
    sumBy (fun r => r.artistName) (fun r => r.minutesPlayed)
        [C6rowA, C6rowB] "A"
      = sumBy (fun r => r.artistName) (fun r => r.minutesPlayed)
        [C6rowA, C6rowB] "B" ∧
    (top_artists [C6rowA, C6rowB]).map Prod.fst = ["B", "A"] ∧
    (track_counts [C6rowA, C6rowB]).map Prod.fst = ["T2", "T1"] := by
  refine ⟨by decide, ?_, ?_, ?_⟩
  · simp +decide [sumBy, C6rowA, C6rowB, List.filter]
  · simp +decide [top_artists, sort_values_descending, groupbySum, groupKeys,
      sumBy, C6rowA, C6rowB, List.filter, List.insertionSort,
      List.orderedInsert]
  · simp +decide [track_counts, sort_values_descending, groupbySum, groupKeys,
      sumBy, C6rowA, C6rowB, List.filter, List.insertionSort,
      List.orderedInsert]

/-- C6 (amended): the top-10 artist summary (sum of `minutesPlayed` by
`artistName`) and the top-10 track summary (event count by `trackName`)
each have at most 10 entries, sorted non-increasing by the aggregated
value; ties between equal values are *not* broken by first-seen order of
the key in the input. -/
theorem C6_topn_bounded_and_sorted (rows : List Row) :
    (top_artists rows).length ≤ 10 ∧
    List.Sorted (fun a b : String × ℚ => b.2 ≤ a.2) (top_artists rows) ∧
    (track_counts rows).length ≤ 10 ∧
    List.Sorted (fun a b : String × ℚ => b.2 ≤ a.2) (track_counts rows) := by
  refine ⟨?_, ?_, ?_, ?_⟩
  · rw [top_artists, List.length_take]
    omega
  · exact List.Pairwise.sublist (List.take_sublist 10 _)
      (sort_values_descending_sorted _)
  · rw [track_counts, List.length_take]
    omega
  · exact List.Pairwise.sublist (List.take_sublist 10 _)
      (sort_values_descending_sorted _)

/-! ## Claim theorems: play-duration filter, derived fields, empty input -/

/-- C7: an event belongs to the play-duration population `valid_plays`
exactly when it is an input event with `minutesPlayed` strictly greater
than 0.1; every event at or below 0.1 is excluded. -/
theorem C7_duration_threshold (rows : List Row) (r : Row) :
    r ∈ valid_plays rows ↔ r ∈ rows ∧ (1 : ℚ) / 10 < r.minutesPlayed := by
  simp [valid_plays, List.mem_filter]

/-- C8: every normalized row stores `minutesPlayed = msPlayed / 60000`
exactly, and `date` equal to the calendar-date portion of the parsed
`endTime` timestamp. -/
theorem C8_derived_fields (history : List RawRecord) (r : Row)
    (hr : r ∈ history_to_df history) :
    r.minutesPlayed = (r.msPlayed : ℚ) / 60000 ∧ r.date = r.endTime.date := by
  simp only [history_to_df, List.mem_map] at hr
  obtain ⟨rec, -, rfl⟩ := hr
  exact ⟨rfl, rfl⟩

/-- Witness for C8: the row normalized from a 180000 ms event ending
2024-01-01 10:00. -/
theorem C8_witness :
    C8row.minutesPlayed = (C8row.msPlayed : ℚ) / 60000 ∧
    C8row.date = C8row.endTime.date :=
  C8_derived_fields [C8rec] C8row
    (by simp [history_to_df, C8rec, C8row, Timestamp.date])

/-- Counterexample to C9: on the empty collection the day-of-week summary
yields its seven buckets with undefined (NaN, modelled `none`) values —
neither an empty result nor an all-zero one. -/
theorem C9_counterexample :
    weekly_listening [] =
      [("Monday", none), ("Tuesday", none), ("Wednesday", none),
       ("Thursday", none), ("Friday", none), ("Saturday", none),
       ("Sunday", none)] ∧
    (none : Option ℚ) ≠ some 0 := by
  refine ⟨by decide, by decide⟩

/-- C9 (amended): on the empty collection every summary returns without
failing: the total is 0, the grouped summaries and the duration population
are empty, and the day-of-week summary has its 7 fixed buckets — carrying
undefined (NaN) values rather than zeros. -/
theorem C9_empty_input :
    total_minutes [] = 0 ∧
    top_artists [] = [] ∧
    daily_listening [] = [] ∧
    track_counts [] = [] ∧
    hourly_listening [] = [] ∧
    monthly_listening [] = [] ∧
    valid_plays [] = [] ∧
    weekly_listening [] = day_order.map fun d => (d, none) := by
  refine ⟨by decide, ?_, ?_, ?_, ?_, ?_, by decide, by decide⟩ <;>
    simp [top_artists, daily_listening, track_counts, hourly_listening,
      monthly_listening, groupbySum, groupKeys, sort_values_descending,
      List.insertionSort]

/-! ## Claim theorems: mutation of the shared frame -/

/-- Counterexample to C4: running `plot_listening_patterns` changes the
shared `music_df` frame — it assigns the `hour`, `day_of_week` and `month`
columns in place, so the consumed collection is not left unchanged. -/
theorem C4_counterexample : plot_listening_patterns C4df ≠ C4df := by
  intro h
  have h2 := congrArg MusicDF.hour h
  simp [plot_listening_patterns, C4df, mkMusicDF] at h2

/-- C4 (amended): `plot_overall_stats` consumes the shared frame strictly
read-only; `plot_listening_patterns` preserves every normalized record and
all its fields (`rows` unchanged) but writes the three derived columns
`hour`, `day_of_week`, `month` into the shared mutable frame. -/
theorem C4_frame_effects (df : MusicDF) :
    plot_overall_stats df = df ∧
    (plot_listening_patterns df).rows = df.rows ∧
    (plot_listening_patterns df).hour
      = some (df.rows.map fun r => r.endTime.hour) ∧
    (plot_listening_patterns df).day_of_week
      = some (df.rows.map fun r => r.endTime.dayName) ∧
    (plot_listening_patterns df).month
      = some (df.rows.map fun r => r.endTime.monthStr) :=
  ⟨rfl, rfl, rfl, rfl, rfl⟩

end SpotifyAnalyzer
